import Mathlib

/-!
Shallow embedding of the StageSync Klipper plugin
(src/klipper/stagesync.py, production variant, and
src/dev/stagesync-verbose-mode.py, verbose development variant).

Host collaborators (printer object registry, G-code dispatch, reactor
timers, shutdown) are modelled as parameters and as an observable event
trace.  Temperatures and ratios are exact rational values carried by a
kernel-computable fraction type `Frac` (an `Int` numerator over a positive
`Nat` denominator); Python float parsing of a ratio literal is modelled as
an `Option Frac` (`none` = the literal does not parse, i.e. `float`
raises).  A dispatch channel is a function `String → Option String`:
`none` means the host accepted the script, `some e` means it rejected it
with error text `e`.
-/

namespace StageSync

/-- An exact rational value: `num / (den1 + 1)`.  The denominator is
stored minus one so that it is positive by construction and every
operation stays executable by kernel reduction (no normalisation, no
gcd).  Two `Frac`s denote the same number iff `veqB` holds. -/
structure Frac where
  num : ℤ
  den1 : ℕ
deriving DecidableEq, Repr

namespace Frac

/-- The positive denominator. -/
def den (x : Frac) : ℤ := ((x.den1 + 1 : ℕ) : ℤ)

instance : OfNat Frac n := ⟨⟨(n : ℤ), 0⟩⟩

def mul (x y : Frac) : Frac := ⟨x.num * y.num, (x.den1 + 1) * (y.den1 + 1) - 1⟩

def add (x y : Frac) : Frac :=
  ⟨x.num * y.den + y.num * x.den, (x.den1 + 1) * (y.den1 + 1) - 1⟩

def neg (x : Frac) : Frac := ⟨-x.num, x.den1⟩

def sub (x y : Frac) : Frac := add x (neg y)

def abs (x : Frac) : Frac := ⟨|x.num|, x.den1⟩

/-- Value equality (the equality Python's `==`/`!=` on floats uses). -/
def veqB (x y : Frac) : Bool := x.num * y.den = y.num * x.den

/-- Value order `x ≤ y`. -/
def leB (x y : Frac) : Bool := x.num * y.den ≤ y.num * x.den

/-- Value order `x < y`. -/
def ltB (x y : Frac) : Bool := x.num * y.den < y.num * x.den

/-- Floor to an integer. -/
def floor (x : Frac) : ℤ := Int.fdiv x.num x.den

end Frac

/-- Observable effects the plugin performs on its host. -/
inductive Event where
  | dispatch (script : String)
  | logError (msg : String)
  | logInfo (msg : String)
  | logWarning (msg : String)
  | logDebug (msg : String)
  | shutdown (msg : String)
  | registerTimer
  | registerCommand (cname : String)
  | registerHandler (hname : String)
  | respond (msg : String)
deriving DecidableEq, Repr

def isDispatchB : Event → Bool
  | .dispatch _ => true
  | _ => false

def isShutdownB : Event → Bool
  | .shutdown _ => true
  | _ => false

def isLogB : Event → Bool
  | .logError _ => true
  | .logInfo _ => true
  | .logWarning _ => true
  | .logDebug _ => true
  | _ => false

/-- The scripts submitted to the host command interface, in order. -/
def dispatchedScripts (evs : List Event) : List String :=
  evs.filterMap fun e =>
    match e with
    | .dispatch s => some s
    | _ => none

/-- Round to the nearest integer, ties to even (the rounding Python's
fixed-point float formatting uses). -/
def roundHalfEven (q : Frac) : ℤ :=
  let f := q.floor
  let fr := Frac.sub q ⟨f, 0⟩
  if Frac.ltB fr ⟨1, 1⟩ then f
  else if Frac.ltB ⟨1, 1⟩ fr then f + 1
  else if f % 2 = 0 then f else f + 1

/-- Model of Python's `f"{x:.2f}"`: fixed two-decimal formatting with
round-half-to-even. -/
def fmt2 (q : Frac) : String :=
  let n := roundHalfEven (Frac.mul q 100)
  let sign := if n < 0 then "-" else ""
  let m := n.natAbs
  let ip := m / 100
  let fp := m % 100
  sign ++ toString ip ++ "." ++ (if fp < 10 then "0" else "") ++ toString fp

/-- Fractional decimal digits of `q ∈ [0,1)`, bounded by `fuel`
(empty once the remainder reaches zero). -/
def fracDigits : Frac → Nat → String
  | _, 0 => ""
  | q, fuel + 1 =>
    if q.num = 0 then ""
    else
      let q10 := Frac.mul q 10
      let d := q10.floor
      toString d ++ fracDigits (Frac.sub q10 ⟨d, 0⟩) fuel

/-- Model of Python's `str(x)` / `f"{x}"` on a float that carries an exact
terminating decimal value: shortest decimal form, always keeping at least
one fractional digit (`str(100.0) = "100.0"`). -/
def pyStr (q : Frac) : String :=
  let sign := if q.num < 0 then "-" else ""
  let a := Frac.abs q
  let ip := a.floor
  let ds := fracDigits (Frac.sub a ⟨ip, 0⟩) 30
  sign ++ toString ip ++ "." ++ (if ds = "" then "0" else ds)

/-- Python string interpolation of an optional float
(`None` renders as `"None"`). -/
def optFloatStr : Option Frac → String
  | none => "None"
  | some q => pyStr q

/-- How a stage handle renders in an f-string / `str(...)`: heater handles
are modelled by their name, an unresolved (Python `None`) handle renders
as `"None"`.  This models `heater_obj.get_name() if hasattr(...) else
heater_obj` in the production file and `... else str(stage)` in the
verbose file. -/
def heaterDisplay : Option String → String
  | some n => n
  | none => "None"

/-- Mutable state of one `stagesync` instance: the primary heater name
from the config section, the resolved primary heater handle (set on
connect), the stage table (heater handle, ratio), and the last applied
target temperature. -/
structure State where
  heater_name : String
  heater : Option String
  stages : List (Option String × Frac)
  last_target_temp : Option Frac
deriving DecidableEq, Repr

/-! ### Fault handlers (production file, lines 107-130)
Each logs an error and requests host shutdown; it returns (it does not
raise), so the caller's code continues after the call. -/

def ratio_fault (name : String) (ratio : Frac) : List Event :=
  let msg := "stagesync: invalid ratio for '" ++ name ++ "': " ++ pyStr ratio
  [Event.logError msg, Event.shutdown msg]

def stages_fault (name : String) : List Event :=
  let msg := "stagesync: unknown stage '" ++ name ++ "'"
  [Event.logError msg, Event.shutdown msg]

def heater_fault (name : String) (e : String) : List Event :=
  let msg := "stagesync: heater init error '" ++ name ++ "': " ++ e
  [Event.logError msg, Event.shutdown msg]

def mapping_fault (name : String) (e : String) : List Event :=
  let msg := "stagesync: mapping error '" ++ name ++ "': " ++ e
  [Event.logError msg, Event.shutdown msg]

/-! ### Constructor (production file, lines 17-48) -/

/-- One iteration of the constructor's `for` loop over a
`(stage_name, temp_ratio)` pair.  The parsed ratio is `none` when
`float(temp_ratio)` raises (unparsable literal), in which case the
`except` branch runs `mapping_fault` (Python's ValueError text is
abstracted to its fixed prefix).  Note the source's fault helpers return,
so an out-of-range ratio or an unresolved stage is still appended. -/
def initStep (registry : String → Option String) :
    String × Option Frac → List (Option String × Frac) × List Event
  | (rawName, none) =>
      ([], mapping_fault rawName.trim "could not convert string to float")
  | (rawName, some ratio) =>
      let name := rawName.trim
      let evR := if Frac.leB 0 ratio && Frac.leB ratio 2 then []
                 else ratio_fault name ratio
      let mapped := Event.logInfo
        ("stagesync: mapped '" ++ name ++ "' with ratio " ++ pyStr ratio)
      match registry name with
      | none => ([(none, ratio)], evR ++ stages_fault name ++ [mapped])
      | some h => ([(some h, ratio)], evR ++ [mapped])

/-- The constructor's `for` loop over `zip(stage_names, temp_ratios)`. -/
def initStages (registry : String → Option String) :
    List (String × Option Frac) → List (Option String × Frac) × List Event
  | [] => ([], [])
  | p :: ps =>
      let s := initStep registry p
      let r := initStages registry ps
      (s.1 ++ r.1, s.2 ++ r.2)

/-- `stagesync.__init__`: registers the STAGESYNC command and the two
lifecycle handlers, then builds the stage table from the comma-split
`stages` and `temp_ratio` configuration lists (zipped, so the pairing
truncates at the shorter list). -/
def init (heater_name : String) (registry : String → Option String)
    (stage_names : List String) (ratio_lits : List (Option Frac)) :
    State × List Event :=
  let r := initStages registry (stage_names.zip ratio_lits)
  ({ heater_name := heater_name, heater := none, stages := r.1,
     last_target_temp := none },
   [Event.registerCommand "STAGESYNC", Event.registerHandler "klippy:connect",
    Event.registerHandler "klippy:ready"] ++ r.2)

/-! ### Sync engine and handlers (production file, lines 50-105) -/

/-- One line of the batch script (production file, line 83). -/
def syncLine (t : Frac) (s : Option String × Frac) : String :=
  "SET_HEATER_TEMPERATURE HEATER=\"" ++ heaterDisplay s.1 ++
    "\" TARGET=\"" ++ fmt2 (Frac.mul t s.2) ++ "\""

/-- `stagesync._do_sync`: no-op when the primary heater handle is unset or
the target is absent; otherwise builds the newline-joined batch script and
submits it with one `run_script_from_command` call, logging an error
(only) if the host rejects it. -/
def do_sync (st : State) (target : Option Frac)
    (disp : String → Option String) : State × List Event :=
  match st.heater, target with
  | none, _ => (st, [])
  | some _, none => (st, [])
  | some _, some t =>
      let script := String.intercalate "\n" (st.stages.map (syncLine t))
      match disp script with
      | none => (st, [Event.dispatch script])
      | some e =>
          (st, [Event.dispatch script,
            Event.logError ("stagesync: failed to sync secondary heaters: " ++ e)])

/-- `stagesync.handle_connect`: resolve the primary heater and register
the periodic timer; on a lookup error run `heater_fault`. -/
def handle_connect (st : State) (lookupRes : Except String String) :
    State × List Event :=
  match lookupRes with
  | .ok h => ({ st with heater := some h }, [Event.registerTimer])
  | .error e => (st, heater_fault st.heater_name e)

/-- `stagesync.handle_ready`: force an initial sync with the last known
target. -/
def handle_ready (st : State) (disp : String → Option String) :
    State × List Event :=
  do_sync st st.last_target_temp disp

/-- Python's `target is not None and target != self.last_target_temp`
given a present `target`: a float never equals `None`, floats compare by
value. -/
def targetChangedB (tv : Frac) (last : Option Frac) : Bool :=
  match last with
  | none => true
  | some lv => !Frac.veqB tv lv

/-- `stagesync.check_event`: one poll tick at `eventtime`.  `sample`
models `self.heater.get_temp(eventtime)` (`Except.error` = the call
raised).  Returns the new state, the emitted events and the next wake
time (`none` would be the reactor's NEVER sentinel; `check_event` never
returns it). -/
def check_event (st : State) (eventtime : Frac)
    (sample : Except String (Frac × Option Frac))
    (disp : String → Option String) :
    State × List Event × Option Frac :=
  match sample with
  | .error _ => (st, [], some (Frac.add eventtime 1))
  | .ok (_, target) =>
      match target with
      | none => (st, [], some (Frac.add eventtime 1))
      | some tv =>
          if targetChangedB tv st.last_target_temp then
            let st' := { st with last_target_temp := some tv }
            let r := do_sync st' (some tv) disp
            (r.1, r.2, some (Frac.add eventtime 1))
          else (st, [], some (Frac.add eventtime 1))

/-- `stagesync.cmd_STAGESYNC`: manual trigger.  Uses the cached
`last_target_temp` if set; otherwise, when the primary heater handle is
set, samples its current target (`sample`; `Except.error` = `get_temp`
raised, which the `except` branch reports to the caller). -/
def cmd_STAGESYNC (st : State) (sample : Except String (Frac × Option Frac))
    (disp : String → Option String) : State × List Event :=
  let ev0 := Event.respond "stagesync: manual trigger…"
  if st.last_target_temp = none ∧ st.heater ≠ none then
    match sample with
    | .error e => (st, [ev0, Event.respond ("stagesync: error: " ++ e)])
    | .ok (_, tgt) =>
        let r := do_sync st tgt disp
        (r.1, ev0 :: r.2 ++ [Event.respond "stagesync: update completed"])
  else
    let r := do_sync st st.last_target_temp disp
    (r.1, ev0 :: r.2 ++ [Event.respond "stagesync: update completed"])

/-! ### Verbose development variant (src/dev/stagesync-verbose-mode.py) -/

namespace Dev

/-- One command line of the verbose variant (dev file, line 104): same
template as production, but the adjusted value is interpolated with
Python's default float formatting, not `:.2f`. -/
def devLine (t : Frac) (s : Option String × Frac) : String :=
  "SET_HEATER_TEMPERATURE HEATER=\"" ++ heaterDisplay s.1 ++
    "\" TARGET=\"" ++ pyStr (Frac.mul t s.2) ++ "\""

/-- `StageSync.gcode_fault` (dev file, lines 135-139): log and request
shutdown. -/
def gcode_fault (name : String) (e : String) : List Event :=
  let msg := "[StageSync] Error sending G-code to '" ++ name ++ "': " ++ e
  [Event.logError msg, Event.shutdown msg]

/-- `StageSync.sync_temperatures` (dev file, lines 91-109): logs, checks
the primary heater then the target, and submits one `run_script` call per
stage (no batching), escalating through `gcode_fault` when a per-stage
dispatch fails (the loop then continues with the next stage). -/
def sync_temperatures (st : State) (target : Option Frac)
    (disp : String → Option String) : State × List Event :=
  let ev0 := Event.logInfo
    ("[StageSync] Synchronizing stages to target " ++ optFloatStr target)
  match st.heater with
  | none =>
      (st, [ev0, Event.logError
        ("[StageSync] Primary heater '" ++ st.heater_name ++ "' not initialized.")])
  | some _ =>
      match target with
      | none =>
          (st, [ev0,
            Event.logError "[StageSync] Invalid target; cannot synchronize."])
      | some t =>
          (st, ev0 :: (st.stages.map (fun s =>
            let cmd := devLine t s
            match disp cmd with
            | none => [Event.dispatch cmd,
                       Event.logInfo ("[StageSync] Sent: " ++ cmd)]
            | some e =>
                Event.dispatch cmd :: gcode_fault (heaterDisplay s.1) e)).flatten)

end Dev

/-! ### Concrete fixtures used by witnesses and counterexamples -/

/-- The spec's scenario state: stages `left,right` with ratios `0.5,1.2`
(the values `1/2` and `6/5`), primary heater resolved. -/
def stScenario : State :=
  { heater_name := "extruder", heater := some "extruder",
    stages := [(some "left", ⟨1, 1⟩), (some "right", ⟨6, 4⟩)],
    last_target_temp := none }

/-- A dispatch channel that accepts every script. -/
def dispOk : String → Option String := fun _ => none

/-- A dispatch channel that rejects every script. -/
def dispFail : String → Option String := fun _ => some "rejected"

/-- A device registry that resolves every name to itself. -/
def regAll : String → Option String := fun n => some n

end StageSync

namespace StageSync

/-! ### Helper lemmas -/

lemma do_sync_fst (st : State) (target : Option Frac)
    (disp : String → Option String) : (do_sync st target disp).1 = st := by
  rcases st with ⟨a, b, c, d⟩
  cases b <;> cases target <;> simp only [do_sync]
  cases disp (String.intercalate "\n" (List.map (syncLine _) c)) <;> rfl

lemma do_sync_heater_none (st : State) (target : Option Frac)
    (disp : String → Option String) (h : st.heater = none) :
    do_sync st target disp = (st, []) := by
  rcases st with ⟨a, b, c, d⟩
  cases h
  cases target <;> rfl

lemma do_sync_target_none (st : State) (disp : String → Option String) :
    do_sync st none disp = (st, []) := by
  rcases st with ⟨a, b, c, d⟩
  cases b <;> rfl

lemma do_sync_scripts (st : State) (t : Frac) (h : String)
    (disp : String → Option String) (hh : st.heater = some h) :
    dispatchedScripts (do_sync st (some t) disp).2 =
      [String.intercalate "\n" (st.stages.map (syncLine t))] := by
  rcases st with ⟨hn, hea, stg, lt⟩
  cases hh
  simp only [do_sync]
  cases disp (String.intercalate "\n" (stg.map (syncLine t))) <;> rfl

lemma do_sync_no_shutdown (st : State) (target : Option Frac)
    (disp : String → Option String) :
    (do_sync st target disp).2.any isShutdownB = false := by
  rcases st with ⟨a, b, c, d⟩
  cases b <;> cases target <;> simp only [do_sync] <;> try rfl
  cases disp (String.intercalate "\n" (List.map (syncLine _) c)) <;> rfl

lemma dispatchedScripts_append (l1 l2 : List Event) :
    dispatchedScripts (l1 ++ l2) = dispatchedScripts l1 ++ dispatchedScripts l2 :=
  List.filterMap_append l1 l2 _

/-! ### Claim theorems -/

/-- Claim C1: with a resolved primary heater, a present target and a
non-empty stage table, one sync submits exactly one dispatch whose script
is the newline-joined list of `SET_HEATER_TEMPERATURE` lines, one per
stage in table order, each formatting `target * ratio` to two decimals;
in particular the `left,right` / `0.5,1.2` / target-200 scenario yields
the `100.00` line followed by the `240.00` line in one batch. -/
theorem C1_single_batch_dispatch (st : State) (t : Frac) (h : String)
    (disp : String → Option String) (hh : st.heater = some h)
    (hne : st.stages ≠ []) :
    dispatchedScripts (do_sync st (some t) disp).2 =
      [String.intercalate "\n" (st.stages.map (fun s =>
        "SET_HEATER_TEMPERATURE HEATER=\"" ++ heaterDisplay s.1 ++
          "\" TARGET=\"" ++ fmt2 (Frac.mul t s.2) ++ "\""))] ∧
    dispatchedScripts (do_sync stScenario (some 200) dispOk).2 =
      ["SET_HEATER_TEMPERATURE HEATER=\"left\" TARGET=\"100.00\"\nSET_HEATER_TEMPERATURE HEATER=\"right\" TARGET=\"240.00\""] := by
  exact ⟨do_sync_scripts st t h disp hh, rfl⟩

theorem C1_single_batch_dispatch_witness :
    dispatchedScripts (do_sync stScenario (some 200) dispOk).2 =
      [String.intercalate "\n" (stScenario.stages.map (fun s =>
        "SET_HEATER_TEMPERATURE HEATER=\"" ++ heaterDisplay s.1 ++
          "\" TARGET=\"" ++ fmt2 (Frac.mul 200 s.2) ++ "\""))] :=
  (C1_single_batch_dispatch stScenario 200 "extruder" dispOk rfl
    (by decide)).1

/-- Claim C6 (idempotent skip): when the sampled target is present and
equal in value to the cached `last_target_temp`, the poll tick dispatches
nothing, leaves the state unchanged, and reschedules one unit later. -/
theorem C6_idempotent_skip (st : State) (time c tv lv : Frac)
    (disp : String → Option String) (h : st.last_target_temp = some lv)
    (hv : Frac.veqB tv lv = true) :
    check_event st time (Except.ok (c, some tv)) disp
      = (st, [], some (Frac.add time 1)) := by
  simp [check_event, targetChangedB, h, hv]

theorem C6_idempotent_skip_witness :
    check_event { stScenario with last_target_temp := some 200 } 5
        (Except.ok (25, some 200)) dispOk
      = ({ stScenario with last_target_temp := some 200 }, [],
         some (Frac.add 5 1)) :=
  C6_idempotent_skip { stScenario with last_target_temp := some 200 } 5 25
    200 200 dispOk rfl (by decide)

/-- Claim C7 (amended): every poll tick — absent target, unchanged target,
changed target, or a sampling error — returns the next wake time one unit
after the invocation time and never the never-reschedule sentinel
(`none`), so the poll loop is never stopped on a non-fatal path.  (The
production variant does not log the swallowed sampling error; see the
counterexample.) -/
theorem C7_always_reschedules (st : State) (time : Frac)
    (sample : Except String (Frac × Option Frac))
    (disp : String → Option String) :
    (check_event st time sample disp).2.2 = some (Frac.add time 1) := by
  rcases sample with e | ⟨c, tgt⟩
  · rfl
  · cases tgt
    · rfl
    · simp only [check_event]
      split <;> rfl

/-- Counterexample to claim C7 as stated: on a tick whose sampling raises,
the production `check_event` emits no events at all — in particular no log
record — while still rescheduling.  The claim's "caught locally and
logged" is false for `src/klipper/stagesync.py` (its `except` branch is a
bare `return eventtime + 1.0`). -/
theorem C7_sampling_error_not_logged :
    check_event stScenario 0 (Except.error "sensor read failed") dispOk
        = (stScenario, [], some (Frac.add 0 1)) ∧
      (check_event stScenario 0 (Except.error "sensor read failed")
        dispOk).2.1.any isLogB = false := by
  decide

/-- Claim C8: when the primary heater handle is unset or the target is
absent, the sync engine performs no dispatch, raises no fault and changes
no state; the forced sync on the ready signal with no known target (or
with the heater still unset) is likewise a silent no-op. -/
theorem C8_precondition_noop (st : State) (target : Option Frac)
    (disp : String → Option String) (h : st.heater = none ∨ target = none) :
    do_sync st target disp = (st, []) ∧
    (st.last_target_temp = none → handle_ready st disp = (st, [])) ∧
    (st.heater = none → handle_ready st disp = (st, [])) := by
  refine ⟨?_, ?_, ?_⟩
  · rcases h with h | h
    · exact do_sync_heater_none st target disp h
    · cases h
      exact do_sync_target_none st disp
  · intro h2
    unfold handle_ready
    rw [h2]
    exact do_sync_target_none st disp
  · intro h2
    exact do_sync_heater_none st st.last_target_temp disp h2

theorem C8_precondition_noop_witness :
    do_sync stScenario none dispOk = (stScenario, []) ∧
    handle_ready stScenario dispOk = (stScenario, []) :=
  ⟨(C8_precondition_noop stScenario none dispOk (Or.inr rfl)).1,
   (C8_precondition_noop stScenario none dispOk (Or.inr rfl)).2.1 rfl⟩

/-- Claim C10 (frame): the manual trigger command never mutates
`last_target_temp` (nor any other field), even when it samples a fresh
target; the ready handler and the sync engine are likewise read-only on
the state.  Only the poll tick `check_event` writes `last_target_temp`. -/
theorem C10_manual_trigger_frame (st : State)
    (sample : Except String (Frac × Option Frac))
    (disp : String → Option String) (target : Option Frac) :
    (cmd_STAGESYNC st sample disp).1 = st ∧ (handle_ready st disp).1 = st ∧
    (do_sync st target disp).1 = st := by
  refine ⟨?_, do_sync_fst st st.last_target_temp disp, do_sync_fst st target disp⟩
  unfold cmd_STAGESYNC
  split
  · rcases sample with e | ⟨c, tgt⟩
    · rfl
    · simp [do_sync_fst]
  · simp [do_sync_fst]

/-- Counterexample to claim C2 as stated: when the host rejects the batch,
the production `_do_sync` only logs an error — it requests no process
termination (`invoke_shutdown` is never called on this path; contrast the
verbose variant's `gcode_fault`). -/
theorem C2_no_escalation_counterexample :
    (do_sync stScenario (some 200) dispFail).2 =
      [Event.dispatch "SET_HEATER_TEMPERATURE HEATER=\"left\" TARGET=\"100.00\"\nSET_HEATER_TEMPERATURE HEATER=\"right\" TARGET=\"240.00\"",
       Event.logError "stagesync: failed to sync secondary heaters: rejected"] ∧
    (do_sync stScenario (some 200) dispFail).2.any isShutdownB = false := by
  decide

/-- Claim C2 (amended): when the batch dispatch fails, the production sync
engine submits the batch exactly once (no retry) and logs an error naming
the sync failure, but it does not escalate — no shutdown is requested; the
verbose development variant is the one that escalates via `invoke_shutdown`
(per failed per-stage command). -/
theorem C2_dispatch_failure_logged_only (st : State) (t : Frac)
    (h e : String) (hh : st.heater = some h) :
    (dispatchedScripts (do_sync st (some t) (fun _ => some e)).2).length = 1 ∧
    Event.logError ("stagesync: failed to sync secondary heaters: " ++ e)
      ∈ (do_sync st (some t) (fun _ => some e)).2 ∧
    (do_sync st (some t) (fun _ => some e)).2.any isShutdownB = false ∧
    (st.stages ≠ [] →
      (Dev.sync_temperatures st (some t) (fun _ => some e)).2.any isShutdownB
        = true) := by
  rcases st with ⟨hn, hea, stg, lt⟩
  cases hh
  refine ⟨?_, ?_, ?_, ?_⟩
  · rfl
  · simp [do_sync]
  · rfl
  · intro hne
    rcases stg with _ | ⟨s0, rest⟩
    · exact absurd rfl hne
    · simp [Dev.sync_temperatures, Dev.gcode_fault, isShutdownB]

/-- Counterexample to claim C5 as stated: on the very same state and
target, the production and verbose variants submit different command text
(two-decimal vs default float formatting), different batching (one joined
script vs one call per stage), and behave differently on dispatch failure
(no shutdown vs shutdown). -/
theorem C5_variants_not_equivalent_counterexample :
    dispatchedScripts (do_sync stScenario (some 200) dispOk).2 ≠
      dispatchedScripts
        (Dev.sync_temperatures stScenario (some 200) dispOk).2 ∧
    (do_sync stScenario (some 200) dispFail).2.any isShutdownB = false ∧
    (Dev.sync_temperatures stScenario (some 200) dispFail).2.any isShutdownB
      = true := by
  decide

/-- Claim C5 (amended): the two variants agree on the per-stage heater
names and adjusted values, in stage-table order — both emit the
`SET_HEATER_TEMPERATURE` template on `heaterDisplay` of the stage handle
and `target * ratio` — but they are not behaviourally equivalent: the
production variant joins all lines into one batch dispatch and formats the
value to two decimals and never escalates a dispatch failure, while the
verbose variant performs one dispatch per stage with Python default float
formatting (and escalates failures; see the counterexample). -/
theorem C5_same_values_different_presentation (st : State) (t : Frac)
    (h : String) (d1 d2 : String → Option String) (hh : st.heater = some h) :
    dispatchedScripts (do_sync st (some t) d1).2 =
      [String.intercalate "\n" (st.stages.map (fun s =>
        "SET_HEATER_TEMPERATURE HEATER=\"" ++ heaterDisplay s.1 ++
          "\" TARGET=\"" ++ fmt2 (Frac.mul t s.2) ++ "\""))] ∧
    dispatchedScripts (Dev.sync_temperatures st (some t) d2).2 =
      st.stages.map (fun s =>
        "SET_HEATER_TEMPERATURE HEATER=\"" ++ heaterDisplay s.1 ++
          "\" TARGET=\"" ++ pyStr (Frac.mul t s.2) ++ "\"") ∧
    (∀ d, (do_sync st (some t) d).2.any isShutdownB = false) := by
  refine ⟨do_sync_scripts st t h d1 hh, ?_, fun d => do_sync_no_shutdown st (some t) d⟩
  rcases st with ⟨hn, hea, stg, lt⟩
  cases hh
  simp only [Dev.sync_temperatures]
  induction stg with
  | nil => rfl
  | cons s0 rest ih =>
      simp only [List.map_cons, List.flatten_cons]
      cases hd : d2 (Dev.devLine t s0) <;>
        simp_all [dispatchedScripts, Dev.gcode_fault, Dev.devLine]

/-- Claim C9: the manual trigger uses the cached target without resampling
when one is set (the sample argument is irrelevant); with no cached target
and a resolved primary heater it syncs with the freshly sampled target;
with no cached target and no resolved heater it is a no-op that still
replies; and in every case the last reply is either the completion message
or the error message. -/
theorem C9_manual_trigger (st : State)
    (sample : Except String (Frac × Option Frac))
    (disp : String → Option String) :
    (∀ tv, st.last_target_temp = some tv →
      cmd_STAGESYNC st sample disp =
        ((do_sync st (some tv) disp).1,
          Event.respond "stagesync: manual trigger…" ::
            ((do_sync st (some tv) disp).2 ++
              [Event.respond "stagesync: update completed"]))) ∧
    (∀ c tgt, st.last_target_temp = none → st.heater ≠ none →
      sample = Except.ok (c, tgt) →
      cmd_STAGESYNC st sample disp =
        ((do_sync st tgt disp).1,
          Event.respond "stagesync: manual trigger…" ::
            ((do_sync st tgt disp).2 ++
              [Event.respond "stagesync: update completed"]))) ∧
    (st.last_target_temp = none → st.heater = none →
      cmd_STAGESYNC st sample disp =
        (st, [Event.respond "stagesync: manual trigger…",
              Event.respond "stagesync: update completed"])) ∧
    ((∃ l, (cmd_STAGESYNC st sample disp).2 =
        l ++ [Event.respond "stagesync: update completed"]) ∨
      ∃ e, sample = Except.error e ∧
        (cmd_STAGESYNC st sample disp).2 =
          [Event.respond "stagesync: manual trigger…",
           Event.respond ("stagesync: error: " ++ e)]) := by
  refine ⟨?_, ?_, ?_, ?_⟩
  · intro tv hlast
    have hc : ¬(st.last_target_temp = none ∧ st.heater ≠ none) := by
      simp [hlast]
    simp [cmd_STAGESYNC, hc, hlast]
  · intro c tgt hlast hheat hs
    subst hs
    have hc : st.last_target_temp = none ∧ st.heater ≠ none := ⟨hlast, hheat⟩
    simp [cmd_STAGESYNC, hc]
  · intro hlast hheat
    have hc : ¬(st.last_target_temp = none ∧ st.heater ≠ none) := by
      simp [hheat]
    simp [cmd_STAGESYNC, hc, hlast, hheat, do_sync_heater_none st _ disp hheat]
  · by_cases hc : st.last_target_temp = none ∧ st.heater ≠ none
    · rcases sample with e | ⟨c, tgt⟩
      · exact Or.inr ⟨e, rfl, by simp [cmd_STAGESYNC, hc]⟩
      · refine Or.inl ⟨Event.respond "stagesync: manual trigger…" ::
          (do_sync st tgt disp).2, ?_⟩
        simp [cmd_STAGESYNC, hc]
    · refine Or.inl ⟨Event.respond "stagesync: manual trigger…" ::
        (do_sync st st.last_target_temp disp).2, ?_⟩
      simp [cmd_STAGESYNC, hc]

theorem C2_dispatch_failure_logged_only_witness :
    (dispatchedScripts
      (do_sync stScenario (some 200) (fun _ => some "rejected")).2).length = 1 ∧
    Event.logError ("stagesync: failed to sync secondary heaters: " ++ "rejected")
      ∈ (do_sync stScenario (some 200) (fun _ => some "rejected")).2 ∧
    (do_sync stScenario (some 200) (fun _ => some "rejected")).2.any isShutdownB
      = false ∧
    (Dev.sync_temperatures stScenario (some 200)
      (fun _ => some "rejected")).2.any isShutdownB = true :=
  have h := C2_dispatch_failure_logged_only stScenario 200 "extruder"
    "rejected" rfl
  ⟨h.1, h.2.1, h.2.2.1, h.2.2.2 (by decide)⟩

theorem C5_same_values_different_presentation_witness :
    dispatchedScripts (do_sync stScenario (some 200) dispOk).2 =
      [String.intercalate "\n" (stScenario.stages.map (fun s =>
        "SET_HEATER_TEMPERATURE HEATER=\"" ++ heaterDisplay s.1 ++
          "\" TARGET=\"" ++ fmt2 (Frac.mul 200 s.2) ++ "\""))] ∧
    dispatchedScripts (Dev.sync_temperatures stScenario (some 200) dispOk).2 =
      stScenario.stages.map (fun s =>
        "SET_HEATER_TEMPERATURE HEATER=\"" ++ heaterDisplay s.1 ++
          "\" TARGET=\"" ++ pyStr (Frac.mul 200 s.2) ++ "\"") ∧
    (do_sync stScenario (some 200) dispFail).2.any isShutdownB = false :=
  have h := C5_same_values_different_presentation stScenario 200 "extruder"
    dispOk dispOk rfl
  ⟨h.1, h.2.1, h.2.2 dispFail⟩

theorem C9_manual_trigger_witness :
    cmd_STAGESYNC { stScenario with last_target_temp := some 180 }
        (Except.error "unused") dispOk =
      ((do_sync { stScenario with last_target_temp := some 180 } (some 180)
          dispOk).1,
        Event.respond "stagesync: manual trigger…" ::
          ((do_sync { stScenario with last_target_temp := some 180 } (some 180)
              dispOk).2 ++
            [Event.respond "stagesync: update completed"])) :=
  (C9_manual_trigger { stScenario with last_target_temp := some 180 }
    (Except.error "unused") dispOk).1 180 rfl

/-! ### Stage-table construction lemmas (for C3 and C4) -/

/-- The condition under which the code faults on a `(name, ratio)` pair:
the literal does not parse, or the parsed value fails the
`0.0 <= ratio <= 2.0` test. -/
def badLitB : Option Frac → Bool
  | none => true
  | some r => !(Frac.leB 0 r && Frac.leB r 2)

lemma initStep_no_shutdown (registry : String → Option String)
    (p : String × Option Frac)
    (h : (initStep registry p).2.any isShutdownB = false) :
    ∃ hr r, p.2 = some r ∧ Frac.leB 0 r = true ∧ Frac.leB r 2 = true ∧
      registry p.1.trim = some hr ∧
      (initStep registry p).1 = [(some hr, r)] := by
  rcases p with ⟨n, ro⟩
  cases ro with
  | none => simp [initStep, mapping_fault, isShutdownB] at h
  | some r =>
      by_cases hb : (Frac.leB 0 r && Frac.leB r 2) = true
      · cases hreg : registry n.trim with
        | none =>
            simp [initStep, hb, hreg, stages_fault, isShutdownB] at h
        | some hr =>
            rw [Bool.and_eq_true] at hb
            refine ⟨hr, r, rfl, hb.1, hb.2, rfl, ?_⟩
            simp [initStep, hb.1, hb.2, hreg]
      · cases hreg : registry n.trim <;>
          simp [initStep, hb, hreg, ratio_fault, stages_fault, isShutdownB] at h

lemma initStages_no_shutdown (registry : String → Option String) :
    ∀ ps : List (String × Option Frac),
      (initStages registry ps).2.any isShutdownB = false →
      (initStages registry ps).1.length = ps.length ∧
      ∀ q ∈ (initStages registry ps).1,
        q.1 ≠ none ∧ Frac.leB 0 q.2 = true ∧ Frac.leB q.2 2 = true
  | [], _ => ⟨rfl, by simp [initStages]⟩
  | p :: ps, h => by
      simp only [initStages, List.any_append, Bool.or_eq_false_iff] at h
      obtain ⟨h1, h2⟩ := h
      obtain ⟨hr, r, hro, hr0, hr2, hreg, hstep⟩ :=
        initStep_no_shutdown registry p h1
      obtain ⟨ihlen, ihmem⟩ := initStages_no_shutdown registry ps h2
      constructor
      · simp [initStages, hstep, ihlen]
      · intro q hq
        simp only [initStages, hstep, List.cons_append, List.nil_append,
          List.mem_cons] at hq
        rcases hq with rfl | hq
        · exact ⟨by simp, hr0, hr2⟩
        · exact ihmem q hq

lemma initStep_bad_shutdown (registry : String → Option String)
    (p : String × Option Frac) (hb : badLitB p.2 = true) :
    (initStep registry p).2.any isShutdownB = true := by
  rcases p with ⟨n, ro⟩
  cases ro with
  | none => simp [initStep, mapping_fault, isShutdownB]
  | some r =>
      have hfalse : ¬((Frac.leB 0 r && Frac.leB r 2) = true) := by
        simp only [badLitB, Bool.not_eq_true'] at hb
        simp [hb]
      cases hreg : registry n.trim <;>
        simp [initStep, hfalse, hreg, ratio_fault, stages_fault, isShutdownB]

lemma initStages_bad_shutdown (registry : String → Option String) :
    ∀ ps : List (String × Option Frac), ∀ p ∈ ps, badLitB p.2 = true →
      (initStages registry ps).2.any isShutdownB = true
  | [], p, hp, _ => absurd hp (List.not_mem_nil p)
  | q :: ps, p, hp, hb => by
      simp only [initStages, List.any_append, Bool.or_eq_true]
      rcases List.mem_cons.mp hp with rfl | hin
      · exact Or.inl (initStep_bad_shutdown registry p hb)
      · exact Or.inr (initStages_bad_shutdown registry ps p hin hb)

/-- Events the constructor loop may emit: never a dispatch, never a timer
registration. -/
def tameB : Event → Bool
  | .dispatch _ => false
  | .registerTimer => false
  | _ => true

lemma initStep_tame (registry : String → Option String)
    (p : String × Option Frac) :
    (initStep registry p).2.all tameB = true := by
  rcases p with ⟨n, ro⟩
  cases ro with
  | none => rfl
  | some r =>
      by_cases hb : (Frac.leB 0 r && Frac.leB r 2) = true <;>
        cases hreg : registry n.trim <;>
          simp [initStep, hb, hreg, ratio_fault, stages_fault, tameB]

lemma initStages_tame (registry : String → Option String) :
    ∀ ps : List (String × Option Frac),
      (initStages registry ps).2.all tameB = true
  | [] => rfl
  | p :: ps => by
      simp only [initStages, List.all_append, Bool.and_eq_true]
      exact ⟨initStep_tame registry p, initStages_tame registry ps⟩

lemma zip_has_bad : ∀ (names : List String) (lits : List (Option Frac)),
    names.length = lits.length → ∀ l ∈ lits, badLitB l = true →
    ∃ p ∈ names.zip lits, badLitB p.2 = true
  | [], [], _, l, hl, _ => absurd hl (List.not_mem_nil l)
  | [], _ :: _, hlen, _, _, _ => by simp at hlen
  | _ :: _, [], hlen, _, _, _ => by simp at hlen
  | n :: ns, l0 :: ls, hlen, l, hl, hb => by
      rcases List.mem_cons.mp hl with rfl | hin
      · exact ⟨(n, l), List.mem_cons_self _ _, hb⟩
      · obtain ⟨p, hp, hbp⟩ :=
          zip_has_bad ns ls (by simpa using hlen) l hin hb
        exact ⟨p, List.mem_cons_of_mem _ hp, hbp⟩

/-- Counterexample to claim C3 as stated: with `stages = "a,b"` but a
single ratio `1.0`, `zip` silently truncates — construction emits no fault
at all, the built table has one entry while two stage names were
configured, and the table is then used for a dispatch on the next target
change.  The invariant "length equals the count of configured stage
names" is violated by a table that is used for synchronization. -/
theorem C3_table_invariant_counterexample :
    (init "extruder" regAll ["a", "b"] [some 1]).2.any isShutdownB = false ∧
    (init "extruder" regAll ["a", "b"] [some 1]).1.stages.length = 1 ∧
    ["a", "b"].length = 2 ∧
    (check_event
        { (init "extruder" regAll ["a", "b"] [some 1]).1 with
            heater := some "extruder" } 0
        (Except.ok (25, some 200)) dispOk).2.1.any isDispatchB = true := by
  decide

/-- Claim C3 (amended): a stage table built by a construction that emits
no fault has length `min(#names, #ratios)` (count equality with the
configured lists is NOT enforced — `zip` silently drops the excess), every
entry resolved and every ratio within `[0, 2]`; it is non-empty whenever
both configured lists are non-empty.  (When construction does fault, the
code still appends the offending entry — see the C4 analysis — so the
invariant only holds of fault-free constructions.) -/
theorem C3_fault_free_table_invariant (hn : String)
    (registry : String → Option String) (names : List String)
    (lits : List (Option Frac))
    (h : (init hn registry names lits).2.any isShutdownB = false) :
    (init hn registry names lits).1.stages.length
        = min names.length lits.length ∧
    (∀ q ∈ (init hn registry names lits).1.stages,
      q.1 ≠ none ∧ Frac.leB 0 q.2 = true ∧ Frac.leB q.2 2 = true) ∧
    (names ≠ [] → lits ≠ [] →
      (init hn registry names lits).1.stages ≠ []) := by
  have h' : (initStages registry (names.zip lits)).2.any isShutdownB
      = false := by
    simpa [init, isShutdownB] using h
  obtain ⟨hlen, hmem⟩ := initStages_no_shutdown registry (names.zip lits) h'
  have hstages : (init hn registry names lits).1.stages
      = (initStages registry (names.zip lits)).1 := rfl
  refine ⟨?_, ?_, ?_⟩
  · rw [hstages, hlen, List.length_zip]
  · intro q hq
    exact hmem q (by rwa [hstages] at hq)
  · intro h1 h2
    rw [hstages]
    intro hz
    have hzero : (initStages registry (names.zip lits)).1.length = 0 := by
      rw [hz]; rfl
    rw [hlen, List.length_zip] at hzero
    rcases names with _ | ⟨n, ns⟩
    · exact h1 rfl
    rcases lits with _ | ⟨l, ls⟩
    · exact h2 rfl
    simp at hzero

theorem C3_fault_free_table_invariant_witness :
    (init "e" regAll ["a", "b"] [some 1, some ⟨3, 1⟩]).1.stages.length
        = min ["a", "b"].length [some (1 : Frac), some ⟨3, 1⟩].length ∧
    (init "e" regAll ["a", "b"] [some 1, some ⟨3, 1⟩]).1.stages ≠ [] :=
  have h := C3_fault_free_table_invariant "e" regAll ["a", "b"]
    [some 1, some ⟨3, 1⟩] (by decide)
  ⟨h.1, h.2.2 (by decide) (by decide)⟩

/-- Claim C4: a configuration with an unparsable ratio literal or a parsed
ratio outside `[0, 2]` makes construction escalate through the fault
handlers (`invoke_shutdown` is requested) while the constructor itself
schedules no poll timer and dispatches no heater command; under the host
contract that a shutdown request halts further callbacks (spec §4.5), no
heater command is ever issued for the instance.  (The configured lists
have equal length, as the configuration contract requires.) -/
theorem C4_bad_ratio_faults_before_poll (hn : String)
    (registry : String → Option String) (names : List String)
    (lits : List (Option Frac)) (hlen : names.length = lits.length)
    (hbad : lits.any badLitB = true) :
    (init hn registry names lits).2.any isShutdownB = true ∧
    (init hn registry names lits).2.any isDispatchB = false ∧
    Event.registerTimer ∉ (init hn registry names lits).2 := by
  obtain ⟨l, hl, hbl⟩ := List.any_eq_true.mp hbad
  obtain ⟨p, hp, hbp⟩ := zip_has_bad names lits hlen l hl hbl
  have htame := initStages_tame registry (names.zip lits)
  rw [List.all_eq_true] at htame
  refine ⟨?_, ?_, ?_⟩
  · have := initStages_bad_shutdown registry (names.zip lits) p hp hbp
    simp [init, List.any_append, this, isShutdownB]
  · rw [List.any_eq_false]
    intro e he
    simp only [init, List.mem_append, List.mem_cons,
      List.not_mem_nil, or_false] at he
    rcases he with (rfl | rfl | rfl) | he
    · simp [isDispatchB]
    · simp [isDispatchB]
    · simp [isDispatchB]
    · have := htame e he
      cases e <;> simp_all [tameB, isDispatchB]
  · intro he
    simp only [init, List.mem_append, List.mem_cons,
      List.not_mem_nil, or_false] at he
    rcases he with (he | he | he) | he
    · exact Event.noConfusion he
    · exact Event.noConfusion he
    · exact Event.noConfusion he
    · have := htame _ he
      simp [tameB] at this

theorem C4_bad_ratio_faults_before_poll_witness :
    (init "extruder" regAll ["a"] [some ⟨3, 0⟩]).2.any isShutdownB = true ∧
    (init "extruder" regAll ["a"] [some ⟨3, 0⟩]).2.any isDispatchB = false ∧
    Event.registerTimer ∉ (init "extruder" regAll ["a"] [some ⟨3, 0⟩]).2 :=
  C4_bad_ratio_faults_before_poll "extruder" regAll ["a"] [some ⟨3, 0⟩]
    rfl (by decide)

end StageSync
